import Mathlib

/-!
Shallow embedding of src/api.js (the chat-api-v1 completion relay).

The repository is a stateless HTTP relay with two endpoints, /api/chat
and /api/title, sharing one outbound helper callChatCompletions.
JavaScript runtime values reaching the handlers (request bodies parsed by
the JSON body middleware, provider response bodies) are modelled by the
inductive type JsVal, including undefined, with JS truthiness,
optional chaining and string coercion modelled explicitly.  External
collaborators (the HTTP framework, fetch, and the runtime built-ins
JSON.parse / JSON.stringify) are parameters of the embedding: the
provider is a pure stub OutboundRequest → ProviderResponse, and the
JSON built-ins form a JsRuntime parameter.  Handlers return the HTTP
response together with the list of outbound provider calls they made, so
call-count properties are statable.
-/

/-- A JavaScript runtime value, as far as the relay code inspects one.
Numbers are modelled as integers: every numeric value that the branches
of the relay inspect is only tested for truthiness, for which Int
suffices. -/
inductive JsVal where
  | undefined : JsVal
  | null : JsVal
  | bool : Bool → JsVal
  | num : Int → JsVal
  | str : String → JsVal
  | arr : List JsVal → JsVal
  | obj : List (String × JsVal) → JsVal

/-- JS truthiness of a value (!v in the source is !v.truthy here). -/
def JsVal.truthy : JsVal → Bool
  | .undefined => false
  | .null => false
  | .bool b => b
  | .num n => n != 0
  | .str s => s != ""
  | .arr _ => true
  | .obj _ => true

/-- Property lookup in an object field list; a key written later in the
literal overrides an earlier one, as in a JS object. -/
def lookupField : List (String × JsVal) → String → JsVal
  | [], _ => .undefined
  | (k, v) :: rest, key =>
    match lookupField rest key with
    | .undefined => if k == key then v else .undefined
    | r => r

/-- Optional-chained property access v?.key.  For the keys the relay
reads (error, message, choices, content, and the request-body fields) a
non-object has no such own property, so the result is undefined. -/
def JsVal.get (v : JsVal) (key : String) : JsVal :=
  match v with
  | .obj fs => lookupField fs key
  | _ => .undefined

/-- Optional-chained index access v?.[n]. -/
def JsVal.idx (v : JsVal) (n : Nat) : JsVal :=
  match v with
  | .arr xs => xs.getD n .undefined
  | .str s =>
    match s.toList.get? n with
    | some c => .str (String.mk [c])
    | none => .undefined
  | .obj fs => lookupField fs (toString n)
  | _ => .undefined

/-- Array element coercion used by the toString of a JS array: null and
undefined elements become the empty string. -/
def jsToStringList : List JsVal → List String
  | [] => []
  | .undefined :: vs => "" :: jsToStringList vs
  | .null :: vs => "" :: jsToStringList vs
  | .num n :: vs => toString n :: jsToStringList vs
  | .str s :: vs => s :: jsToStringList vs
  | .bool b :: vs => (if b then "true" else "false") :: jsToStringList vs
  | .obj _ :: vs => "[object Object]" :: jsToStringList vs
  | .arr xs :: vs => String.intercalate (",") (jsToStringList xs) :: jsToStringList vs

/-- JS string coercion String(v), also used by template-literal
interpolation. -/
def jsToString : JsVal → String
  | .undefined => "undefined"
  | .null => "null"
  | .bool b => if b then "true" else "false"
  | .num n => toString n
  | .str s => s
  | .arr xs => String.intercalate (",") (jsToStringList xs)
  | .obj _ => "[object Object]"

/-- The nullish-coalescing operator v ?? d. -/
def nullishOr (v d : JsVal) : JsVal :=
  match v with
  | .undefined => d
  | .null => d
  | _ => v

/-- A destructuring default (const { x = d } = o): the default applies
only when the property is undefined. -/
def defaultUndef (v d : JsVal) : JsVal :=
  match v with
  | .undefined => d
  | _ => v

/-- The process environment, as read by src/api.js: each variable is
absent (none) or a string. -/
structure Env where
  OPENAI_API_KEY : Option String
  OPENAI_BASE_URL : Option String
  OPENAI_MODEL : Option String

/-- Truthiness of process.env.NAME (absent and empty are falsy). -/
def envTruthy : Option String → Bool
  | some s => s != ""
  | none => false

/-- Environment fallback process.env.NAME || d. -/
def envOr (v : Option String) (d : String) : String :=
  match v with
  | some s => if s == "" then d else s
  | none => d

/-- Function mustEnv from src/api.js: throw "NAME is not set" on a falsy
environment variable, otherwise return it. -/
def mustEnv (name : String) (v : Option String) : Except String String :=
  match v with
  | some s => if s == "" then Except.error (name ++ " is not set") else Except.ok s
  | none => Except.error (name ++ " is not set")

/-- Regex replacement of a single trailing slash, as in getBaseUrl. -/
def stripTrailingSlash (s : String) : String :=
  if s.endsWith ("/") then s.dropRight 1 else s

/-- Function getBaseUrl from src/api.js. -/
def getBaseUrl (env : Env) : String :=
  stripTrailingSlash (envOr env.OPENAI_BASE_URL ("https://api.openai.com/v1"))

/-- Function getModel from src/api.js. -/
def getModel (env : Env) : String :=
  envOr env.OPENAI_MODEL ("gpt-4o-mini")

/-- One typed part of the content array of a user message: a text part,
or an image reference carrying a url value and a detail hint. -/
inductive ContentPart where
  | text : String → ContentPart
  | image_url : JsVal → String → ContentPart

/-- The content of a message: either a plain value (the chat relay passes
the message value of the caller through verbatim) or a list of typed
parts. -/
inductive MsgContent where
  | plain : JsVal → MsgContent
  | parts : List ContentPart → MsgContent

/-- One element of the messages array sent to the provider. -/
structure ChatMessage where
  role : String
  content : MsgContent

/-- The JSON body (model, messages, temperature, max_tokens) of the
outbound POST chat/completions request. -/
structure CompletionBody where
  model : String
  messages : List ChatMessage
  temperature : ℚ
  max_tokens : Nat

/-- The full outbound request issued by fetch in callChatCompletions. -/
structure OutboundRequest where
  url : String
  authHeader : String
  reqBody : CompletionBody

/-- The reply of the provider as fetch resolves it: an HTTP status plus
the result of resp.json() (none when the response body is not JSON, in
which case the catch in the source substitutes an empty object). -/
structure ProviderResponse where
  status : Nat
  body : Option JsVal

/-- Field resp.ok of the Fetch API: status in the 2xx range. -/
def ProviderResponse.ok (r : ProviderResponse) : Bool :=
  decide (200 ≤ r.status ∧ r.status < 300)

/-- The arguments object of callChatCompletions (the defaults of the
source, temperature 0.2 and max_tokens 300, are never used: both call
sites pass both fields, so the embedding makes them required). -/
structure CallArgs where
  messages : List ChatMessage
  temperature : ℚ
  max_tokens : Nat

/-- Function callChatCompletions from src/api.js, lines 36-64: check the
key, issue the outbound request, parse the response body (empty object on
parse failure), throw the error.message of the provider (or a generic
message) on a non-2xx status, else return choices[0].message.content with
the empty string for a nullish content.  The second component records the
outbound calls made. -/
def callChatCompletions (env : Env) (provider : OutboundRequest → ProviderResponse)
    (args : CallArgs) : Except String JsVal × List OutboundRequest :=
  match mustEnv ("OPENAI_API_KEY") env.OPENAI_API_KEY with
  | Except.error e => (Except.error e, [])
  | Except.ok apiKey =>
    let req : OutboundRequest :=
      { url := getBaseUrl env ++ "/chat/completions"
        authHeader := "Bearer " ++ apiKey
        reqBody :=
          { model := getModel env
            messages := args.messages
            temperature := args.temperature
            max_tokens := args.max_tokens } }
    let resp := provider req
    let data := resp.body.getD (JsVal.obj [])
    if !resp.ok then
      let m := (data.get ("error")).get ("message")
      (Except.error (if m.truthy then jsToString m
                     else "OpenAI error (" ++ toString resp.status ++ ")"), [req])
    else
      (Except.ok (nullishOr ((((data.get ("choices")).idx 0).get ("message")).get ("content"))
        (JsVal.str (""))), [req])

/-- An HTTP response of the relay: status code and JSON body. -/
structure HttpResponse where
  status : Nat
  body : JsVal

/-- The body guard req.body || empty object. -/
def bodyOrEmpty (body : JsVal) : JsVal :=
  if body.truthy then body else JsVal.obj []

/-- The catch-clause payload e?.message || String(e) of both handlers:
the message of the thrown Error when non-empty, else String(e), which is
"Error" for an Error built from an empty message. -/
def errToPayload (e : String) : String :=
  if e == "" then "Error" else e

/-- The fixed system instruction of /api/chat. -/
def chatSystemPrompt : String := "You are a helpful support chat assistant."

/-- The /api/chat handler, src/api.js lines 71-95: validate message,
check the key, call the provider with the fixed two-message conversation,
and shape the response.  Returns the HTTP response and the outbound
calls. -/
def apiChat (env : Env) (provider : OutboundRequest → ProviderResponse)
    (body : JsVal) : HttpResponse × List OutboundRequest :=
  let message := (bodyOrEmpty body).get ("message")
  if !message.truthy then
    ({ status := 400, body := JsVal.obj [("error", JsVal.str ("message is required"))] }, [])
  else if !envTruthy env.OPENAI_API_KEY then
    ({ status := 500, body := JsVal.obj [("error", JsVal.str ("OPENAI_API_KEY is not set"))] }, [])
  else
    match callChatCompletions env provider
        { messages :=
            [ { role := "system", content := MsgContent.plain (JsVal.str chatSystemPrompt) },
              { role := "user", content := MsgContent.plain message } ]
          temperature := 0.6
          max_tokens := 400 } with
    | (Except.ok content, calls) =>
      ({ status := 200, body := JsVal.obj [("reply", content)] }, calls)
    | (Except.error e, calls) =>
      ({ status := 500, body := JsVal.obj [("error", JsVal.str (errToPayload e))] }, calls)

/-- The fixed system instruction of /api/title (the source joins these
lines with a newline). -/
def titleSystemPrompt : String :=
  String.intercalate ("\n")
    [ "You are an eBay title assistant specialized in Japanese items.",
      "Return ONLY a JSON object (no markdown, no extra text).",
      "Output JSON schema:",
      "\x7b",
      "  \"title\": \"string (<= 80 chars preferred)\",",
      "  \"object_ranked\": [\"string\", \"... up to 4\"],",
      "  \"tail_ranked\": [\"string\", \"... up to 4\"]",
      "\x7d",
      "",
      "Rules:",
      "- object_ranked: rank the best object/type candidates (1st is best). Use singular nouns.",
      "- tail_ranked: rank optional tail keywords (e.g., Figure, Statue, Style, Period). Avoid vague words.",
      "- Do NOT include the user\x27s hintText tokens inside object_ranked or tail_ranked if they already appear in hintText.",
      "- If low detail, focus mostly on object/type; keep tail_ranked conservative.",
      "- If high detail, you may include motif-like keywords in tail_ranked if clearly visible, but still keep it short." ]

/-- The JSON built-ins the title relay uses, as the runtime provides
them: JSON.parse (which first coerces its argument to a string, and
throws - here none - on invalid JSON) and JSON.stringify. -/
structure JsRuntime where
  parse : String → Option JsVal
  stringify : JsVal → String

/-- The /api/title handler, src/api.js lines 113-193: check the key,
destructure the body with its defaults, validate the image fields by
truthiness with imageDataUrl first, build the prompt, call the provider,
then try JSON.parse on the raw answer and either re-serialize the parsed
value or fall back to the raw answer verbatim. -/
def apiTitle (rt : JsRuntime) (env : Env) (provider : OutboundRequest → ProviderResponse)
    (body : JsVal) : HttpResponse × List OutboundRequest :=
  if !envTruthy env.OPENAI_API_KEY then
    ({ status := 500, body := JsVal.obj [("error", JsVal.str ("OPENAI_API_KEY is not set"))] }, [])
  else
    let b := bodyOrEmpty body
    let imageUrl := b.get ("imageUrl")
    let imageDataUrl := b.get ("imageDataUrl")
    let hintText := defaultUndef (b.get ("hintText")) (JsVal.str (""))
    let highRes := defaultUndef (b.get ("highRes")) (JsVal.bool false)
    let img := if imageDataUrl.truthy then imageDataUrl else imageUrl
    if !img.truthy then
      ({ status := 400, body := JsVal.obj [("error", JsVal.str ("imageUrl or imageDataUrl is required"))] }, [])
    else
      let detailMode := if highRes.truthy then "high" else "low"
      let userParts :=
        "hintText: " ++ jsToString (if hintText.truthy then hintText else JsVal.str (""))
          ++ "\ndetail: " ++ detailMode
      match callChatCompletions env provider
          { messages :=
              [ { role := "system", content := MsgContent.plain (JsVal.str titleSystemPrompt) },
                { role := "user",
                  content := MsgContent.parts
                    [ ContentPart.text userParts,
                      ContentPart.image_url img detailMode ] } ]
            temperature := 0.2
            max_tokens := 260 } with
      | (Except.error e, calls) =>
        ({ status := 500, body := JsVal.obj [("error", JsVal.str (errToPayload e))] }, calls)
      | (Except.ok raw, calls) =>
        match rt.parse (jsToString raw) with
        | none => ({ status := 200, body := JsVal.obj [("reply", raw)] }, calls)
        | some parsed =>
          ({ status := 200, body := JsVal.obj [("reply", JsVal.str (rt.stringify parsed))] }, calls)

/-! ### Derived descriptions of the handlers, used to state and prove the claims -/

/-- The outbound request that callChatCompletions builds once the key
check has passed. -/
def mkReq (env : Env) (apiKey : String) (args : CallArgs) : OutboundRequest :=
  { url := getBaseUrl env ++ "/chat/completions"
    authHeader := "Bearer " ++ apiKey
    reqBody :=
      { model := getModel env
        messages := args.messages
        temperature := args.temperature
        max_tokens := args.max_tokens } }

/-- How callChatCompletions maps one provider response to a result: the
branch of src/api.js lines 55-63. -/
def respResult (resp : ProviderResponse) : Except String JsVal :=
  let data := resp.body.getD (JsVal.obj [])
  if !resp.ok then
    let m := (data.get ("error")).get ("message")
    Except.error (if m.truthy then jsToString m
                  else "OpenAI error (" ++ toString resp.status ++ ")")
  else
    Except.ok (nullishOr ((((data.get ("choices")).idx 0).get ("message")).get ("content"))
      (JsVal.str ("")))

/-- The image value the title relay selects: imageDataUrl when truthy,
else imageUrl (src/api.js line 127). -/
def titleImg (body : JsVal) : JsVal :=
  if ((bodyOrEmpty body).get ("imageDataUrl")).truthy then (bodyOrEmpty body).get ("imageDataUrl")
  else (bodyOrEmpty body).get ("imageUrl")

/-- The arguments the chat relay passes to callChatCompletions. -/
def chatArgs (body : JsVal) : CallArgs :=
  { messages :=
      [ { role := "system", content := MsgContent.plain (JsVal.str chatSystemPrompt) },
        { role := "user", content := MsgContent.plain ((bodyOrEmpty body).get ("message")) } ]
    temperature := 0.6
    max_tokens := 400 }

/-- The detail mode the title relay derives from highRes. -/
def titleDetailMode (body : JsVal) : String :=
  if (defaultUndef ((bodyOrEmpty body).get ("highRes")) (JsVal.bool false)).truthy then "high" else "low"

/-- The text part of the user turn built by the title relay. -/
def titleUserParts (body : JsVal) : String :=
  "hintText: "
    ++ jsToString (if (defaultUndef ((bodyOrEmpty body).get ("hintText")) (JsVal.str (""))).truthy
                   then defaultUndef ((bodyOrEmpty body).get ("hintText")) (JsVal.str (""))
                   else JsVal.str (""))
    ++ "\ndetail: " ++ titleDetailMode body

/-- The arguments the title relay passes to callChatCompletions. -/
def titleArgs (body : JsVal) : CallArgs :=
  { messages :=
      [ { role := "system", content := MsgContent.plain (JsVal.str titleSystemPrompt) },
        { role := "user",
          content := MsgContent.parts
            [ ContentPart.text (titleUserParts body),
              ContentPart.image_url (titleImg body) (titleDetailMode body) ] } ]
    temperature := 0.2
    max_tokens := 260 }

/-! ### Concrete instances used by witnesses and counterexamples -/

/-- A 2xx provider response whose first choice carries content c. -/
def contentResponse (c : String) : ProviderResponse :=
  { status := 200
    body := some (JsVal.obj
      [("choices", JsVal.arr
        [JsVal.obj [("message", JsVal.obj [("content", JsVal.str c)])]])]) }

/-- A deterministic provider stub always answering with content c. -/
def stubProvider (c : String) : OutboundRequest → ProviderResponse :=
  fun _ => contentResponse c

/-- An environment with the key configured and the other variables
absent. -/
def envWithKey (k : String) : Env :=
  { OPENAI_API_KEY := some k, OPENAI_BASE_URL := none, OPENAI_MODEL := none }

/-- An environment with no variable configured. -/
def envNoKey : Env :=
  { OPENAI_API_KEY := none, OPENAI_BASE_URL := none, OPENAI_MODEL := none }

/-- The 500 response both handlers return when the key is missing. -/
def keyMissingResponse : HttpResponse :=
  { status := 500, body := JsVal.obj [("error", JsVal.str ("OPENAI_API_KEY is not set"))] }

/-- A tiny concrete JSON runtime: its parser recognises exactly the
documents "5" and "null", its serializer is the JS string coercion (on
the recognised values it serializes as JSON would). -/
def demoRt : JsRuntime :=
  { parse := fun s => if s == "5" then some (JsVal.num 5)
             else if s == "null" then some JsVal.null
             else none
    stringify := jsToString }

/-- First image reference in a content-part list. -/
def imageOfParts : List ContentPart → Option JsVal
  | [] => none
  | ContentPart.image_url u _ :: _ => some u
  | ContentPart.text _ :: rest => imageOfParts rest

/-- First image reference carried by a message list. -/
def imageOfMessages : List ChatMessage → Option JsVal
  | [] => none
  | m :: rest =>
    match m.content with
    | MsgContent.parts ps =>
      match imageOfParts ps with
      | some u => some u
      | none => imageOfMessages rest
    | MsgContent.plain _ => imageOfMessages rest

/-! ### Helper lemmas -/

lemma envTruthy_some {v : Option String} (h : envTruthy v = true) :
    ∃ s, v = some s ∧ (s == "") = false := by
  cases v with
  | none => simp [envTruthy] at h
  | some s =>
    refine ⟨s, rfl, ?_⟩
    simpa [envTruthy, bne] using h

lemma mustEnv_of_some {v : Option String} {s : String} (hs : v = some s)
    (hne : (s == "") = false) (name : String) : mustEnv name v = Except.ok s := by
  subst hs
  simp [mustEnv, hne]

lemma callChatCompletions_eq (env : Env) (provider : OutboundRequest → ProviderResponse)
    (args : CallArgs) {s : String} (hs : env.OPENAI_API_KEY = some s)
    (hne : (s == "") = false) :
    callChatCompletions env provider args =
      (respResult (provider (mkReq env s args)), [mkReq env s args]) := by
  cases hok : (provider (mkReq env s args)).ok <;>
    simp [callChatCompletions, mustEnv_of_some hs hne, respResult, mkReq] <;>
    simp [mkReq] at hok <;>
    simp [hok]

lemma respResult_contentResponse (c : String) :
    respResult (contentResponse c) = Except.ok (JsVal.str c) := by
  rfl

lemma envTruthy_true_of_some {v : Option String} {s : String} (hs : v = some s)
    (hne : (s == "") = false) : envTruthy v = true := by
  subst hs
  simp [envTruthy, bne, hne]

lemma apiChat_reject (env : Env) (provider : OutboundRequest → ProviderResponse)
    (body : JsVal) (hmsg : ((bodyOrEmpty body).get ("message")).truthy = false) :
    apiChat env provider body =
      ({ status := 400, body := JsVal.obj [("error", JsVal.str ("message is required"))] }, []) := by
  simp [apiChat, hmsg]

lemma apiChat_noKey (env : Env) (provider : OutboundRequest → ProviderResponse)
    (body : JsVal) (hmsg : ((bodyOrEmpty body).get ("message")).truthy = true)
    (hkey : envTruthy env.OPENAI_API_KEY = false) :
    apiChat env provider body = (keyMissingResponse, []) := by
  simp [apiChat, hmsg, hkey, keyMissingResponse]

lemma apiChat_call (env : Env) (provider : OutboundRequest → ProviderResponse)
    (body : JsVal) {s : String} (hs : env.OPENAI_API_KEY = some s)
    (hne : (s == "") = false)
    (hmsg : ((bodyOrEmpty body).get ("message")).truthy = true) :
    apiChat env provider body =
      (match respResult (provider (mkReq env s (chatArgs body))) with
       | Except.ok content =>
         { status := 200, body := JsVal.obj [("reply", content)] }
       | Except.error e =>
         { status := 500, body := JsVal.obj [("error", JsVal.str (errToPayload e))] },
       [mkReq env s (chatArgs body)]) := by
  have hkey := envTruthy_true_of_some hs hne
  have hcall := callChatCompletions_eq env provider (chatArgs body) hs hne
  simp only [chatArgs] at hcall
  cases hr : respResult (provider (mkReq env s (chatArgs body))) with
  | ok content =>
    simp only [chatArgs] at hr
    simp [apiChat, hmsg, hkey, hcall, hr, chatArgs]
  | error e =>
    simp only [chatArgs] at hr
    simp [apiChat, hmsg, hkey, hcall, hr, chatArgs]

lemma apiTitle_noKey (rt : JsRuntime) (env : Env)
    (provider : OutboundRequest → ProviderResponse) (body : JsVal)
    (hkey : envTruthy env.OPENAI_API_KEY = false) :
    apiTitle rt env provider body = (keyMissingResponse, []) := by
  simp [apiTitle, hkey, keyMissingResponse]

lemma apiTitle_noImg (rt : JsRuntime) (env : Env)
    (provider : OutboundRequest → ProviderResponse) (body : JsVal)
    (hkey : envTruthy env.OPENAI_API_KEY = true)
    (himg : (titleImg body).truthy = false) :
    apiTitle rt env provider body =
      ({ status := 400, body := JsVal.obj [("error", JsVal.str ("imageUrl or imageDataUrl is required"))] }, []) := by
  simp only [titleImg] at himg
  simp [apiTitle, hkey, himg]

lemma apiTitle_call (rt : JsRuntime) (env : Env)
    (provider : OutboundRequest → ProviderResponse) (body : JsVal) {s : String}
    (hs : env.OPENAI_API_KEY = some s) (hne : (s == "") = false)
    (himg : (titleImg body).truthy = true) :
    apiTitle rt env provider body =
      (match respResult (provider (mkReq env s (titleArgs body))) with
       | Except.error e =>
         { status := 500, body := JsVal.obj [("error", JsVal.str (errToPayload e))] }
       | Except.ok raw =>
         match rt.parse (jsToString raw) with
         | none => { status := 200, body := JsVal.obj [("reply", raw)] }
         | some parsed =>
           { status := 200, body := JsVal.obj [("reply", JsVal.str (rt.stringify parsed))] },
       [mkReq env s (titleArgs body)]) := by
  have hkey := envTruthy_true_of_some hs hne
  have hcall := callChatCompletions_eq env provider (titleArgs body) hs hne
  simp only [titleArgs, titleUserParts, titleDetailMode, titleImg] at hcall
  simp only [titleImg] at himg
  cases hr : respResult (provider (mkReq env s (titleArgs body))) with
  | ok raw =>
    simp only [titleArgs, titleUserParts, titleDetailMode, titleImg] at hr
    cases hp : rt.parse (jsToString raw) with
    | none =>
      simp [apiTitle, hkey, himg, hcall, hr, hp, titleArgs, titleUserParts, titleDetailMode, titleImg]
    | some parsed =>
      simp [apiTitle, hkey, himg, hcall, hr, hp, titleArgs, titleUserParts, titleDetailMode, titleImg]
  | error e =>
    simp only [titleArgs, titleUserParts, titleDetailMode, titleImg] at hr
    simp [apiTitle, hkey, himg, hcall, hr, titleArgs, titleUserParts, titleDetailMode, titleImg]

/-! ### Claims -/

/-- Claim C1: with the credential configured and an image field present,
for every raw provider text the title relay returns HTTP 200 with a
reply field equal to the re-serialization of the parsed value when the
text parses as JSON, and HTTP 200 with a reply field equal to the raw
text verbatim when parsing fails; in both cases the body is the same
one-field reply object, with no error field or other discriminator. -/
theorem C1_title_response_shaping (rt : JsRuntime) (env : Env) (body : JsVal)
    (raw : String) (hkey : envTruthy env.OPENAI_API_KEY = true)
    (himg : (titleImg body).truthy = true) :
    (apiTitle rt env (stubProvider raw) body).1 =
      match rt.parse raw with
      | some v => { status := 200, body := JsVal.obj [("reply", JsVal.str (rt.stringify v))] }
      | none => { status := 200, body := JsVal.obj [("reply", JsVal.str raw)] } := by
  obtain ⟨s, hs, hne⟩ := envTruthy_some hkey
  rw [apiTitle_call rt env (stubProvider raw) body hs hne himg]
  cases hp : rt.parse raw <;>
    simp [stubProvider, respResult_contentResponse, jsToString, hp]

/-- Witness for C1 at a concrete input: non-JSON provider text comes
back verbatim. -/
theorem C1_witness :
    (apiTitle demoRt (envWithKey ("k")) (stubProvider ("hello"))
        (JsVal.obj [("imageDataUrl", JsVal.str ("data:image/png;base64,AA=="))])).1 =
      { status := 200, body := JsVal.obj [("reply", JsVal.str ("hello"))] } := by
  have h := C1_title_response_shaping demoRt (envWithKey ("k"))
    (JsVal.obj [("imageDataUrl", JsVal.str ("data:image/png;base64,AA=="))])
    ("hello") (by rfl) (by rfl)
  rw [h]
  rfl

/-- Counterexample to Claim C2 as stated: with no credential configured,
a /api/chat request with an empty body gets HTTP 400 (the message
validation fires first), not HTTP 500. -/
theorem C2_counterexample :
    (apiChat envNoKey (stubProvider ("X")) (JsVal.obj [])).1.status = 400 ∧
    ¬ (apiChat envNoKey (stubProvider ("X")) (JsVal.obj [])).1.status = 500 := by
  constructor
  · rfl
  · decide

/-- Claim C2 (amended): with no credential configured, neither endpoint
ever makes an outbound provider call; /api/title responds HTTP 500 with
an error field for every request, and /api/chat responds HTTP 500 with
an error field for every request whose message field is truthy (a
request failing message validation gets HTTP 400 instead). -/
theorem C2_amended (rt : JsRuntime) (env : Env)
    (provider : OutboundRequest → ProviderResponse)
    (hkey : envTruthy env.OPENAI_API_KEY = false) :
    (∀ body, (apiChat env provider body).2 = []) ∧
    (∀ body, (apiTitle rt env provider body).2 = []) ∧
    (∀ body, ((bodyOrEmpty body).get ("message")).truthy = true →
      (apiChat env provider body).1 = keyMissingResponse) ∧
    (∀ body, (apiTitle rt env provider body).1 = keyMissingResponse) := by
  refine ⟨?_, ?_, ?_, ?_⟩
  · intro body
    cases hmsg : ((bodyOrEmpty body).get ("message")).truthy
    · rw [apiChat_reject env provider body hmsg]
    · rw [apiChat_noKey env provider body hmsg hkey]
  · intro body
    rw [apiTitle_noKey rt env provider body hkey]
  · intro body hmsg
    rw [apiChat_noKey env provider body hmsg hkey]
  · intro body
    rw [apiTitle_noKey rt env provider body hkey]

/-- Witness for the amended C2 at concrete inputs. -/
theorem C2_witness :
    (apiTitle demoRt envNoKey (stubProvider ("X")) (JsVal.obj [])).1 = keyMissingResponse ∧
    (apiTitle demoRt envNoKey (stubProvider ("X")) (JsVal.obj [])).2 = [] ∧
    (apiChat envNoKey (stubProvider ("X"))
        (JsVal.obj [("message", JsVal.str ("hi"))])).1 = keyMissingResponse ∧
    (apiChat envNoKey (stubProvider ("X"))
        (JsVal.obj [("message", JsVal.str ("hi"))])).2 = [] := by
  have h := C2_amended demoRt envNoKey (stubProvider ("X")) (by rfl)
  exact ⟨h.2.2.2 _, h.2.1 _, h.2.2.1 _ (by rfl), h.1 _⟩

/-- Claim C3: whenever the message field of the request body is falsy
(absent, or present but empty), /api/chat responds HTTP 400 with the
error message "message is required", whatever the other fields, the
environment and the provider are, and makes no outbound call. -/
theorem C3_chat_message_required (env : Env)
    (provider : OutboundRequest → ProviderResponse) (body : JsVal)
    (hmsg : ((bodyOrEmpty body).get ("message")).truthy = false) :
    apiChat env provider body =
      ({ status := 400, body := JsVal.obj [("error", JsVal.str ("message is required"))] }, []) := by
  simp [apiChat, hmsg]

/-- Witness for C3 at a concrete input: a body with other fields but no
message. -/
theorem C3_witness :
    apiChat (envWithKey ("k")) (stubProvider ("X")) (JsVal.obj [("other", JsVal.num 1)]) =
      ({ status := 400, body := JsVal.obj [("error", JsVal.str ("message is required"))] }, []) := by
  exact C3_chat_message_required (envWithKey ("k")) (stubProvider ("X"))
    (JsVal.obj [("other", JsVal.num 1)]) (by rfl)

/-- Claim C4: with the credential configured, /api/title responds HTTP
400 with an error field whenever neither image field is truthy (and
makes no outbound call), and when both are given (truthy) the image
reference sent to the provider carries the imageDataUrl value. -/
theorem C4_title_validation (rt : JsRuntime) (env : Env)
    (provider : OutboundRequest → ProviderResponse) (body : JsVal)
    (hkey : envTruthy env.OPENAI_API_KEY = true) :
    ((((bodyOrEmpty body).get ("imageDataUrl")).truthy = false ∧
      ((bodyOrEmpty body).get ("imageUrl")).truthy = false) →
      apiTitle rt env provider body =
        ({ status := 400,
           body := JsVal.obj [("error", JsVal.str ("imageUrl or imageDataUrl is required"))] }, [])) ∧
    (((bodyOrEmpty body).get ("imageDataUrl")).truthy = true →
      ((bodyOrEmpty body).get ("imageUrl")).truthy = true →
      ∃ r, (apiTitle rt env provider body).2 = [r] ∧
        imageOfMessages r.reqBody.messages = some ((bodyOrEmpty body).get ("imageDataUrl"))) := by
  constructor
  · intro h
    have himg : (titleImg body).truthy = false := by
      simp [titleImg, h.1, h.2]
    exact apiTitle_noImg rt env provider body hkey himg
  · intro hd hu
    obtain ⟨s, hs, hne⟩ := envTruthy_some hkey
    have himg : (titleImg body).truthy = true := by
      simp [titleImg, hd]
    rw [apiTitle_call rt env provider body hs hne himg]
    refine ⟨mkReq env s (titleArgs body), rfl, ?_⟩
    simp [mkReq, titleArgs, imageOfMessages, imageOfParts, titleImg, hd]

/-- Witness for C4 at a concrete input: neither image field present. -/
theorem C4_witness :
    apiTitle demoRt (envWithKey ("k")) (stubProvider ("X")) (JsVal.obj []) =
      ({ status := 400,
         body := JsVal.obj [("error", JsVal.str ("imageUrl or imageDataUrl is required"))] }, []) := by
  have h := C4_title_validation demoRt (envWithKey ("k")) (stubProvider ("X"))
    (JsVal.obj []) (by rfl)
  exact h.1 ⟨by rfl, by rfl⟩

/-- An arbitrary concrete argument object for exercising
callChatCompletions directly. -/
def demoArgs : CallArgs :=
  { messages := [], temperature := 0.2, max_tokens := 300 }

/-- Counterexample to Claim C5 as stated: a 2xx provider response whose
body is unparseable does not produce a ProviderError; the client
succeeds with the empty string. -/
theorem C5_counterexample :
    (callChatCompletions (envWithKey ("k"))
        (fun _ => { status := 200, body := none }) demoArgs).1 =
      Except.ok (JsVal.str ("")) ∧
    (callChatCompletions (envWithKey ("k"))
        (fun _ => { status := 200, body := none }) demoArgs).1.isOk = true := by
  constructor
  · rfl
  · rfl

/-- Claim C5 (amended): with the credential configured, on a 2xx
provider response the client succeeds with the content string of the
first choice, or with the empty string when that content is nullish
(including when the whole response body is unparseable or empty); it
fails exactly on a non-2xx response, with the error message of the
provider when that is a non-empty string, else with the generic message
"OpenAI error (status)" carrying the status. -/
theorem C5_amended (env : Env) (args : CallArgs) (resp : ProviderResponse)
    (hkey : envTruthy env.OPENAI_API_KEY = true) :
    (resp.ok = true → ∀ c : String,
      ((((resp.body.getD (JsVal.obj [])).get ("choices")).idx 0).get ("message")).get ("content") = JsVal.str c →
      (callChatCompletions env (fun _ => resp) args).1 = Except.ok (JsVal.str c)) ∧
    (resp.ok = true →
      (((((resp.body.getD (JsVal.obj [])).get ("choices")).idx 0).get ("message")).get ("content") = JsVal.undefined ∨
       ((((resp.body.getD (JsVal.obj [])).get ("choices")).idx 0).get ("message")).get ("content") = JsVal.null) →
      (callChatCompletions env (fun _ => resp) args).1 = Except.ok (JsVal.str (""))) ∧
    (resp.ok = false → ∀ m : String,
      (((resp.body.getD (JsVal.obj [])).get ("error")).get ("message")) = JsVal.str m → m ≠ "" →
      (callChatCompletions env (fun _ => resp) args).1 = Except.error m) ∧
    (resp.ok = false →
      ((((resp.body.getD (JsVal.obj [])).get ("error")).get ("message"))).truthy = false →
      (callChatCompletions env (fun _ => resp) args).1 =
        Except.error ("OpenAI error (" ++ toString resp.status ++ ")")) := by
  obtain ⟨s, hs, hne⟩ := envTruthy_some hkey
  rw [callChatCompletions_eq env (fun _ => resp) args hs hne]
  refine ⟨?_, ?_, ?_, ?_⟩
  · intro hok c hc
    simp [respResult, hok, hc, nullishOr]
  · intro hok hc
    rcases hc with hc | hc <;> simp [respResult, hok, hc, nullishOr]
  · intro hok m hm hmne
    simp [respResult, hok, hm, JsVal.truthy, jsToString, bne, hmne]
  · intro hok hm
    simp [respResult, hok, hm]

/-- Witness for the amended C5: a 404 response carrying a provider error
message surfaces that message. -/
theorem C5_witness :
    (callChatCompletions (envWithKey ("k"))
        (fun _ => { status := 404,
                    body := some (JsVal.obj
                      [("error", JsVal.obj [("message", JsVal.str ("boom"))])]) })
        demoArgs).1 = Except.error ("boom") := by
  have h := C5_amended (envWithKey ("k")) demoArgs
    { status := 404,
      body := some (JsVal.obj [("error", JsVal.obj [("message", JsVal.str ("boom"))])]) }
    (by rfl)
  exact h.2.2.1 (by rfl) ("boom") (by rfl) (by decide)

/-- Claim C6: with the credential configured and a provider stub
answering content x, a /api/chat request whose message field is a
non-empty string responds HTTP 200 with reply x, and the single outbound
call carries exactly the two-message conversation of the fixed system
instruction followed by the message of the user verbatim. -/
theorem C6_chat_success (env : Env) (body : JsVal) (message x : String)
    (hkey : envTruthy env.OPENAI_API_KEY = true)
    (hmsg : (bodyOrEmpty body).get ("message") = JsVal.str message)
    (hne : message ≠ "") :
    (apiChat env (stubProvider x) body).1 =
      { status := 200, body := JsVal.obj [("reply", JsVal.str x)] } ∧
    ∃ r, (apiChat env (stubProvider x) body).2 = [r] ∧
      r.reqBody.messages =
        [ { role := "system", content := MsgContent.plain (JsVal.str chatSystemPrompt) },
          { role := "user", content := MsgContent.plain (JsVal.str message) } ] := by
  obtain ⟨s, hs, hsne⟩ := envTruthy_some hkey
  have htr : ((bodyOrEmpty body).get ("message")).truthy = true := by
    simp [hmsg, JsVal.truthy, bne, hne]
  rw [apiChat_call env (stubProvider x) body hs hsne htr]
  refine ⟨?_, mkReq env s (chatArgs body), rfl, ?_⟩
  · simp [stubProvider, respResult_contentResponse]
  · simp [mkReq, chatArgs, hmsg]

/-- Witness for C6 at a concrete input. -/
theorem C6_witness :
    (apiChat (envWithKey ("k")) (stubProvider ("X"))
        (JsVal.obj [("message", JsVal.str ("hi"))])).1 =
      { status := 200, body := JsVal.obj [("reply", JsVal.str ("X"))] } := by
  have h := C6_chat_success (envWithKey ("k"))
    (JsVal.obj [("message", JsVal.str ("hi"))]) ("hi") ("X")
    (by rfl) (by rfl) (by decide)
  exact h.1

/-- Claim C7: both relays are deterministic functions of the request
body, the configuration, the JSON runtime and the provider stub: two
runs on equal inputs produce equal responses (status, body and outbound
calls alike). -/
theorem C7_determinism (rtA rtB : JsRuntime) (envA envB : Env)
    (pA pB : OutboundRequest → ProviderResponse) (bA bB : JsVal)
    (hrt : rtA = rtB) (henv : envA = envB) (hp : pA = pB) (hb : bA = bB) :
    apiChat envA pA bA = apiChat envB pB bB ∧
    apiTitle rtA envA pA bA = apiTitle rtB envB pB bB := by
  subst hrt henv hp hb
  exact ⟨rfl, rfl⟩

/-- Witness for C7 at concrete inputs. -/
theorem C7_witness :
    apiChat (envWithKey ("k")) (stubProvider ("X")) (JsVal.obj [("message", JsVal.str ("hi"))]) =
      apiChat (envWithKey ("k")) (stubProvider ("X")) (JsVal.obj [("message", JsVal.str ("hi"))]) ∧
    apiTitle demoRt (envWithKey ("k")) (stubProvider ("X"))
        (JsVal.obj [("imageUrl", JsVal.str ("http://e/i.png"))]) =
      apiTitle demoRt (envWithKey ("k")) (stubProvider ("X"))
        (JsVal.obj [("imageUrl", JsVal.str ("http://e/i.png"))]) := by
  exact C7_determinism demoRt demoRt (envWithKey ("k")) (envWithKey ("k"))
    (stubProvider ("X")) (stubProvider ("X"))
    (JsVal.obj [("message", JsVal.str ("hi"))]) (JsVal.obj [("message", JsVal.str ("hi"))])
    rfl rfl rfl rfl |>.imp id
    (fun _ => C7_determinism demoRt demoRt (envWithKey ("k")) (envWithKey ("k"))
      (stubProvider ("X")) (stubProvider ("X"))
      (JsVal.obj [("imageUrl", JsVal.str ("http://e/i.png"))])
      (JsVal.obj [("imageUrl", JsVal.str ("http://e/i.png"))]) rfl rfl rfl rfl |>.2)

/-- Claim C8: the two endpoints order their checks oppositely: on a
request with a falsy message, no truthy image field and no credential
configured, /api/chat answers HTTP 400 (message validation first) while
/api/title answers HTTP 500 (credential check first). -/
theorem C8_check_order (rt : JsRuntime) (env : Env)
    (provider : OutboundRequest → ProviderResponse) (body : JsVal)
    (hkey : envTruthy env.OPENAI_API_KEY = false)
    (hmsg : ((bodyOrEmpty body).get ("message")).truthy = false)
    (_himg : (titleImg body).truthy = false) :
    (apiChat env provider body).1 =
      { status := 400, body := JsVal.obj [("error", JsVal.str ("message is required"))] } ∧
    (apiTitle rt env provider body).1 =
      { status := 500, body := JsVal.obj [("error", JsVal.str ("OPENAI_API_KEY is not set"))] } := by
  constructor
  · rw [apiChat_reject env provider body hmsg]
  · rw [apiTitle_noKey rt env provider body hkey]
    rfl

/-- Witness for C8 on the empty request body with no configuration. -/
theorem C8_witness :
    (apiChat envNoKey (stubProvider ("X")) (JsVal.obj [])).1 =
      { status := 400, body := JsVal.obj [("error", JsVal.str ("message is required"))] } ∧
    (apiTitle demoRt envNoKey (stubProvider ("X")) (JsVal.obj [])).1 =
      { status := 500, body := JsVal.obj [("error", JsVal.str ("OPENAI_API_KEY is not set"))] } := by
  exact C8_check_order demoRt envNoKey (stubProvider ("X")) (JsVal.obj [])
    (by rfl) (by rfl) (by rfl)

/-- Claim C9: the title relay never validates the parsed provider output
against the TitleResult schema: whenever the raw provider text parses as
any JSON value at all, the relay responds HTTP 200 with a reply field
equal to the re-serialization of that value. -/
theorem C9_no_schema_validation (rt : JsRuntime) (env : Env) (body : JsVal)
    (raw : String) (v : JsVal)
    (hkey : envTruthy env.OPENAI_API_KEY = true)
    (himg : (titleImg body).truthy = true)
    (hp : rt.parse raw = some v) :
    (apiTitle rt env (stubProvider raw) body).1 =
      { status := 200, body := JsVal.obj [("reply", JsVal.str (rt.stringify v))] } := by
  obtain ⟨s, hs, hne⟩ := envTruthy_some hkey
  rw [apiTitle_call rt env (stubProvider raw) body hs hne himg]
  simp [stubProvider, respResult_contentResponse, jsToString, hp]

/-- Witness for C9 at a concrete input: the provider text "5" parses as
the bare JSON number 5, which is no TitleResult, and is re-serialized
into the reply. -/
theorem C9_witness :
    (apiTitle demoRt (envWithKey ("k")) (stubProvider ("5"))
        (JsVal.obj [("imageUrl", JsVal.str ("http://e/i.png"))])).1 =
      { status := 200, body := JsVal.obj [("reply", JsVal.str ("5"))] } := by
  have h := C9_no_schema_validation demoRt (envWithKey ("k"))
    (JsVal.obj [("imageUrl", JsVal.str ("http://e/i.png"))])
    ("5") (JsVal.num 5) (by rfl) (by rfl) (by rfl)
  rw [h]
  rfl

/-- Claim C10: image presence in /api/title is decided by truthiness,
not key presence: with the credential configured, a body whose
imageDataUrl is the empty string and whose imageUrl is a non-empty
string leads to an outbound call whose image reference carries the
imageUrl value, while a body carrying both fields as empty strings gets
HTTP 400. -/
theorem C10_truthiness (rt : JsRuntime) (env : Env)
    (provider : OutboundRequest → ProviderResponse) (u : String)
    (hkey : envTruthy env.OPENAI_API_KEY = true) (hu : u ≠ "") :
    (∃ r, (apiTitle rt env provider
        (JsVal.obj [("imageDataUrl", JsVal.str ("")), ("imageUrl", JsVal.str u)])).2 = [r] ∧
      imageOfMessages r.reqBody.messages = some (JsVal.str u)) ∧
    apiTitle rt env provider
        (JsVal.obj [("imageDataUrl", JsVal.str ("")), ("imageUrl", JsVal.str (""))]) =
      ({ status := 400,
         body := JsVal.obj [("error", JsVal.str ("imageUrl or imageDataUrl is required"))] }, []) := by
  obtain ⟨s, hs, hne⟩ := envTruthy_some hkey
  constructor
  · have htimg : titleImg (JsVal.obj [("imageDataUrl", JsVal.str ("")), ("imageUrl", JsVal.str u)]) =
        JsVal.str u := by
      simp [titleImg, bodyOrEmpty, JsVal.get, JsVal.truthy, lookupField]
    have himg : (titleImg (JsVal.obj [("imageDataUrl", JsVal.str ("")), ("imageUrl", JsVal.str u)])).truthy = true := by
      simp [htimg, JsVal.truthy, bne, hu]
    rw [apiTitle_call rt env provider _ hs hne himg]
    refine ⟨mkReq env s (titleArgs _), rfl, ?_⟩
    simp [mkReq, titleArgs, imageOfMessages, imageOfParts, htimg]
  · have himg : (titleImg (JsVal.obj [("imageDataUrl", JsVal.str ("")), ("imageUrl", JsVal.str (""))])).truthy = false := by
      simp [titleImg, bodyOrEmpty, JsVal.get, JsVal.truthy, lookupField]
    exact apiTitle_noImg rt env provider _ hkey himg

/-- Witness for C10 at a concrete input: both image fields present but
empty. -/
theorem C10_witness :
    apiTitle demoRt (envWithKey ("k")) (stubProvider ("X"))
        (JsVal.obj [("imageDataUrl", JsVal.str ("")), ("imageUrl", JsVal.str (""))]) =
      ({ status := 400,
         body := JsVal.obj [("error", JsVal.str ("imageUrl or imageDataUrl is required"))] }, []) := by
  have h := C10_truthiness demoRt (envWithKey ("k")) (stubProvider ("X"))
    ("http://e/i.png") (by rfl) (by decide)
  exact h.2
